/-
Verification of the Send_Developing_Letters per-record pipeline, resilient
call engine, result store and image selector, as shallow Lean embeddings of
the Python sources (src/main.py, src/api_clients/deepseek_client.py,
src/utils/excel_writer_to_save_data.py, src/email_handler/image_selector.py).
-/
import Mathlib

namespace SendDevelopingLetters

/-! ## Python string primitives

Executable (kernel-reducible) models of the Python string operations the
sources use: `str.strip`, `str.lower`, `str.split(sep)`, `pat in s`.
They work on the character list underlying a `String`. -/

/-- Python `str.strip()` on character lists: drop whitespace from both
ends. -/
def charStrip (l : List Char) : List Char :=
  ((l.dropWhile Char.isWhitespace).reverse.dropWhile Char.isWhitespace).reverse

/-- Python `str.strip()`. -/
def pyStrip (s : String) : String := ⟨charStrip s.data⟩

/-- ASCII lower-casing of one character (the sources only compare ASCII
tokens such as "yes" and e-mail addresses). -/
def asciiLower (c : Char) : Char :=
  if 65 ≤ c.toNat ∧ c.toNat ≤ 90 then Char.ofNat (c.toNat + 32) else c

/-- Python `str.lower()` on the ASCII range. -/
def pyLower (s : String) : String := ⟨s.data.map asciiLower⟩

/-- Python `str.split(sep)` for a one-character separator. -/
def splitOnCharAux (c : Char) : List Char → List Char → List (List Char)
  | [], acc => [acc.reverse]
  | x :: xs, acc =>
      if x = c then acc.reverse :: splitOnCharAux c xs []
      else splitOnCharAux c xs (x :: acc)

def splitOnChar (c : Char) (l : List Char) : List (List Char) :=
  splitOnCharAux c l []

/-- Does `s` contain `pat` as a contiguous sublist?  (Python `pat in s`.) -/
def containsSub (pat : List Char) : List Char → Bool
  | [] => pat.isEmpty
  | x :: xs => pat.isPrefixOf (x :: xs) || containsSub pat xs

/-- Python `pat in s` for strings. -/
def pyContains (s pat : String) : Bool := containsSub pat.data s.data

/-! ## Resilient call engine: DeepSeekClient._get_completion

The exception taxonomy mirrors the isinstance chain of
`_get_completion` (deepseek_client.py lines 109-136): each constructor
stands for the first isinstance branch the raised exception would hit. -/

inductive ApiFailure where
  | rateLimitError
  | timeoutError
  | apiConnectionError
  | badRequestError
  | apiError (statusCode : Option Nat)
  | otherError (name : String)
deriving DecidableEq

/-- Classification implemented by the except-branches of `_get_completion`:
rate limit / timeout / connection errors retry; `BadRequestError` does not;
a generic `APIError` retries exactly when its status code is 5xx
(`status_code and 500 <= status_code < 600`); anything else is fatal. -/
def isRetryable : ApiFailure → Bool
  | .rateLimitError => true
  | .timeoutError => true
  | .apiConnectionError => true
  | .badRequestError => false
  | .apiError statusCode =>
      match statusCode with
      | some sc => decide (500 ≤ sc ∧ sc < 600)
      | none => false
  | .otherError _ => false

/-- Outcome of one `chat.completions.create` call: a structurally
empty/invalid response (no choices, or `message.content is None`),
a message content string, or a raised exception. -/
inductive AttemptResult where
  | invalidStructure
  | completion (content : String)
  | apiFailure (e : ApiFailure)

/-- Observable behaviour of one `_get_completion` run: the returned value,
the backoff sleeps performed (in order), and how many API attempts ran. -/
structure CallTrace where
  result : Option String
  sleeps : List ℚ
  attempts : Nat
deriving DecidableEq

/-- The `while retries <= max_retries` loop of `_get_completion`.
`oracle n` is what attempt number `n` (1-based, `attempt = retries + 1`)
does.  The loop body only repeats through the retry branch, which
increments `retries`; `fuel = maxRetries + 1 - retries` bounds it, so the
fuel-exhausted arm is unreachable.  On a well-formed completion the code
returns `content.strip()`; on an invalid structure it returns `None`
without retrying; on a retryable exception with `retries < max_retries`
it sleeps the current delay, doubles it and retries, otherwise it breaks
out and returns `None`; on a fatal exception it returns `None` at once. -/
def getCompletionLoop (oracle : Nat → AttemptResult) (maxRetries : Nat) :
    Nat → Nat → ℚ → CallTrace
  | 0, _, _ => ⟨none, [], 0⟩
  | fuel + 1, retries, delay =>
      match oracle (retries + 1) with
      | .completion s => ⟨some (pyStrip s), [], 1⟩
      | .invalidStructure => ⟨none, [], 1⟩
      | .apiFailure e =>
          if isRetryable e then
            if retries < maxRetries then
              let t := getCompletionLoop oracle maxRetries fuel (retries + 1) (delay * 2)
              ⟨t.result, delay :: t.sleeps, t.attempts + 1⟩
            else ⟨none, [], 1⟩
          else ⟨none, [], 1⟩

/-- `_get_completion` entry: `retries = 0`, `delay = initial_delay`. -/
def getCompletion (oracle : Nat → AttemptResult) (maxRetries : Nat)
    (initialDelay : ℚ) : CallTrace :=
  getCompletionLoop oracle maxRetries (maxRetries + 1) 0 initialDelay

/-! ## Per-record pipeline: run_process in src/main.py

The loop body of `run_process` (main.py lines 211-348) is embedded as a
function of the record plus an environment of external collaborators.
A collaborator returning `Except.error name` models it raising an
exception whose type is called `name`; the `Except.ok` payload models its
return value (`Option` where the Python value can be `None`). -/

/-- `src/core/developing_letter.py` `DevelopingLetter`. -/
structure DevelopingLetter where
  subject : String
  bodyHtml : String
deriving DecidableEq

/-- `src/core/developing_letter.py` `LetterGenerationInput`. -/
structure LetterGenerationInput where
  cooperationPoints : String
  targetCompanyName : String
  contactPersonName : String
deriving DecidableEq

/-- `src/core/target_company_data.py` `TargetCompanyData`. -/
structure TargetCompanyData where
  website : String
  recipientEmail : String
  companyName : String
  contactPerson : String
  processFlag : String
  targetLanguage : Option String := none
  mainBusiness : Option String := none
  cooperationPointsStr : Option String := none
  generatedLetterSubject : Option String := none
  generatedLetterBody : Option String := none
  processingStatus : Option String := none
  draftId : Option String := none
deriving DecidableEq

/-- `TargetCompanyData.should_process`:
`self.process_flag.strip().lower() == 'yes'`. -/
def should_process (c : TargetCompanyData) : Bool :=
  pyLower (pyStrip c.processFlag) == "yes"

/-- The dedupe key of main.py line 226:
`company.recipient_email.strip().lower()`. -/
def normalizedEmail (c : TargetCompanyData) : String :=
  pyLower (pyStrip c.recipientEmail)

/-- main.py line 234 declares the address invalid when
`'@' not in email or '.' not in email.split('@')[-1]`; this is the
complementary "valid" test. -/
def validEmailFormat (e : String) : Bool :=
  e.data.contains '@' && ((splitOnChar '@' e.data).getLastD []).contains '.'

/-- Python truthiness of an `Optional[str]`: `None` and `""` are falsy. -/
def isTruthy : Option String → Bool
  | none => false
  | some s => s != ""

/-- main.py line 251:
`extracted_business if extracted_business else "Not Available"`. -/
def mainBusinessValue : Option String → String
  | some s => if s != "" then s else "Not Available"
  | none => "Not Available"

/-- main.py line 261: `extracted_points if extracted_points and
"No cooperation points identified" not in extracted_points else
"Not Available"`. -/
def cooperationValue : Option String → String
  | some p =>
      if p != "" && !(pyContains p "No cooperation points identified") then p
      else "Not Available"
  | none => "Not Available"

/-- main.py line 267: `company.contact_person or company.company_name`. -/
def contactPersonValue (c : TargetCompanyData) : String :=
  if c.contactPerson != "" then c.contactPerson else c.companyName

/-- External collaborators invoked by the loop body. -/
structure Env where
  fetchWebsiteContent : String → Except String (Option String)
  extractMainBusiness : String → Except String (Option String)
  identifyCooperationPoints : String → String → Except String (Option String)
  generate : LetterGenerationInput → Except String DevelopingLetter
  selectImages : String → String → Nat → Except String (List String)
  createMimeEmail : Except String Unit
  saveEmailToDrafts : Except String (Option String)

/-- External collaborator invocations, in pipeline order. -/
inductive Stage where
  | fetch | extract | cooperate | draft | selectAssets | mime | file
deriving DecidableEq

/-- Result of one iteration of the per-record loop, before the
`except`/`finally` clauses run: the mutated record, the
`should_record_attempt` flag, the collaborators invoked, and the name of
the exception escaping the `try` block, if any. -/
structure BodyResult where
  company : TargetCompanyData
  shouldRecord : Bool
  stages : List Stage
  raised : Option String
deriving DecidableEq

/-- The `try` block of the per-record loop (main.py lines 216-331),
step by step:
1. non-affirmative process flag → `Skipped: Process flag`, not recorded;
2. normalized address already processed → `Skipped: Already processed`,
   not recorded;
3. malformed address → `Skipped: Invalid email format`, not recorded;
4. fetch; a `None` result sets `Error: Failed to fetch website` and
   raises `ValueError`;
5-6. extract and cooperate, normalizing absent output to the
   `"Not Available"` sentinel;
7. letter generation; an error marker in the body sets
   `Error: Letter generation failed` and raises `ValueError`;
8. image selection; a count different from `max_images` sets the
   `Skipped: Found n/m images` status and skips ahead (still recorded);
9-10. MIME assembly and saving to drafts; a falsy draft id sets
   `Error: Failed to save draft` and raises `ValueError`, a truthy one
   sets `Success: Draft ID ...`. -/
def processBody (env : Env) (skyfendDesc : String) (maxImages : Nat)
    (alreadyProcessedEmails : List String) (company : TargetCompanyData) :
    BodyResult :=
  if should_process company = false then
    ⟨{company with processingStatus := some "Skipped: Process flag"},
      false, [], none⟩
  else if normalizedEmail company ∈ alreadyProcessedEmails then
    ⟨{company with processingStatus := some "Skipped: Already processed"},
      false, [], none⟩
  else if validEmailFormat company.recipientEmail = false then
    ⟨{company with processingStatus := some "Skipped: Invalid email format"},
      false, [], none⟩
  else
    match env.fetchWebsiteContent company.website with
    | .error exName => ⟨company, true, [.fetch], some exName⟩
    | .ok none =>
        ⟨{company with processingStatus := some "Error: Failed to fetch website"},
          true, [.fetch], some "ValueError"⟩
    | .ok (some websiteContent) =>
        match env.extractMainBusiness websiteContent with
        | .error exName => ⟨company, true, [.fetch, .extract], some exName⟩
        | .ok extracted =>
            let c₁ := {company with mainBusiness := some (mainBusinessValue extracted)}
            match env.identifyCooperationPoints skyfendDesc (mainBusinessValue extracted) with
            | .error exName => ⟨c₁, true, [.fetch, .extract, .cooperate], some exName⟩
            | .ok points =>
                let c₂ := {c₁ with cooperationPointsStr := some (cooperationValue points)}
                -- contact_person and company_name are never mutated by the
                -- earlier stages, so reading them from the input record is
                -- the same as reading them from the updated one.
                match env.generate ⟨cooperationValue points, company.companyName,
                    contactPersonValue company⟩ with
                | .error exName =>
                    ⟨c₂, true, [.fetch, .extract, .cooperate, .draft], some exName⟩
                | .ok letter =>
                    let c₃ := {c₂ with
                      generatedLetterSubject := some (letter.subject),
                      generatedLetterBody := some (letter.bodyHtml)}
                    if pyContains letter.bodyHtml "Error generating letter content" = true then
                      ⟨{c₃ with processingStatus := some "Error: Letter generation failed"},
                        true, [.fetch, .extract, .cooperate, .draft], some "ValueError"⟩
                    else
                      match env.selectImages letter.bodyHtml company.companyName maxImages with
                      | .error exName =>
                          ⟨c₃, true,
                            [.fetch, .extract, .cooperate, .draft, .selectAssets],
                            some exName⟩
                      | .ok selectedImages =>
                          if selectedImages.length ≠ maxImages then
                            ⟨{c₃ with processingStatus := some ("Skipped: Found " ++
                                toString selectedImages.length ++ "/" ++
                                toString maxImages ++ " images")},
                              true,
                              [.fetch, .extract, .cooperate, .draft, .selectAssets],
                              none⟩
                          else
                            match env.createMimeEmail with
                            | .error exName =>
                                ⟨c₃, true,
                                  [.fetch, .extract, .cooperate, .draft, .selectAssets, .mime],
                                  some exName⟩
                            | .ok _ =>
                                match env.saveEmailToDrafts with
                                | .error exName =>
                                    ⟨c₃, true,
                                      [.fetch, .extract, .cooperate, .draft, .selectAssets,
                                        .mime, .file],
                                      some exName⟩
                                | .ok draftIdOpt =>
                                    if isTruthy draftIdOpt = true then
                                      ⟨{c₃ with
                                          draftId := some (draftIdOpt.getD ""),
                                          processingStatus := some ("Success: Draft ID " ++
                                            draftIdOpt.getD "")},
                                        true,
                                        [.fetch, .extract, .cooperate, .draft, .selectAssets,
                                          .mime, .file],
                                        none⟩
                                    else
                                      ⟨{c₃ with
                                          processingStatus :=
                                            some "Error: Failed to save draft"},
                                        true,
                                        [.fetch, .extract, .cooperate, .draft, .selectAssets,
                                          .mime, .file],
                                        some "ValueError"⟩

/-- main.py line 337: the `except` clause patches the status only when it
is unset, empty, or names neither `Error:` nor `Skipped:`. -/
def needsStatusPatch : Option String → Bool
  | none => true
  | some s => s == "" || !(pyContains s "Error:" || pyContains s "Skipped:")

/-- One full iteration of the per-record loop: the `try` body followed by
the `except Exception` clause, which downgrades an escaped exception to
`Error: {type(e).__name__}` unless a specific `Error:`/`Skipped:` status
was already set. -/
def processCompany (env : Env) (skyfendDesc : String) (maxImages : Nat)
    (alreadyProcessedEmails : List String) (company : TargetCompanyData) :
    BodyResult :=
  let r := processBody env skyfendDesc maxImages alreadyProcessedEmails company
  match r.raised with
  | none => r
  | some exName =>
      if needsStatusPatch r.company.processingStatus = true then
        {r with company :=
          {r.company with processingStatus := some ("Error: " ++ exName)}}
      else r

/-- The batch driver loop (main.py line 211): every record of the input
list is processed in order against the one `already_processed_emails`
set built before the loop at line 207. -/
def runBatch (env : Env) (skyfendDesc : String) (maxImages : Nat)
    (alreadyProcessedEmails : List String) (companies : List TargetCompanyData) :
    List BodyResult :=
  companies.map (processCompany env skyfendDesc maxImages alreadyProcessedEmails)

/-- The `finally` clause (main.py lines 341-344): the record is appended
to `companies_processed_this_run` exactly when `should_record_attempt`
is still true. -/
def contribution (r : BodyResult) : List TargetCompanyData :=
  if r.shouldRecord then [r.company] else []

/-- `companies_processed_this_run` at the end of the batch: the
concatenation of every record's contribution, in input order. -/
def recordedCompanies (env : Env) (skyfendDesc : String) (maxImages : Nat)
    (alreadyProcessedEmails : List String) (companies : List TargetCompanyData) :
    List TargetCompanyData :=
  (runBatch env skyfendDesc maxImages alreadyProcessedEmails companies).foldr
    (fun r acc => contribution r ++ acc) []

/-! ## Result store: save_processed_data in excel_writer_to_save_data.py -/

/-- One persisted row: the `output_columns` projection of a finished
record (excel_writer_to_save_data.py lines 71-82) plus the batch's
`saving_file_time` stamp. -/
structure PersistedRow where
  savingFileTime : String
  companyName : String
  website : String
  recipientEmail : String
  contactPerson : String
  processFlag : String
  targetLanguage : Option String
  mainBusiness : Option String
  cooperationPointsStr : Option String
  generatedLetterSubject : Option String
  generatedLetterBody : Option String
  processingStatus : Option String
  draftId : Option String
deriving DecidableEq

/-- Flatten one finished record into a persisted row with the given
batch timestamp. -/
def toPersistedRow (batchTimestamp : String) (c : TargetCompanyData) :
    PersistedRow where
  savingFileTime := batchTimestamp
  companyName := c.companyName
  website := c.website
  recipientEmail := c.recipientEmail
  contactPerson := c.contactPerson
  processFlag := c.processFlag
  targetLanguage := c.targetLanguage
  mainBusiness := c.mainBusiness
  cooperationPointsStr := c.cooperationPointsStr
  generatedLetterSubject := c.generatedLetterSubject
  generatedLetterBody := c.generatedLetterBody
  processingStatus := c.processingStatus
  draftId := c.draftId

/-- `save_processed_data`, at row granularity.  An empty input returns
without writing anything (lines 33-35); otherwise the batch timestamp —
generated once, line 64 — is stamped on every new row; when no prior
file exists the new rows alone are written (lines 145-150), otherwise
the previous rows are kept, aligned on the shared column set, and the
new rows are appended after them (line 127).  `existing = none` models a
missing file; a `none` result means no file was written. -/
def save_processed_data (processedCompanies : List TargetCompanyData)
    (batchTimestamp : String) (existing : Option (List PersistedRow)) :
    Option (List PersistedRow) :=
  if processedCompanies.isEmpty then none
  else
    let newRows := processedCompanies.map (toPersistedRow batchTimestamp)
    match existing with
    | none => some newRows
    | some rows => some (rows ++ newRows)

/-! ## Image selector: select_relevant_images in image_selector.py -/

/-- The character class of the regex `^[\d._\s\-]+` removed from the
front of a base name. -/
def isLeadingJunk (c : Char) : Bool :=
  c.isDigit || c = '.' || c = '_' || c.isWhitespace || c = '-'

/-- The delimiter class `[\s_-]` used to split base names into words. -/
def isDelim (c : Char) : Bool := c.isWhitespace || c = '_' || c = '-'

/-- Word characters of the regex `\w` (ASCII model). -/
def isWordChar (c : Char) : Bool := c.isAlphanum || c = '_'

/-- Maximal runs of characters not satisfying `p`
(`re.split(r'...+', s)` keeping the non-empty parts). -/
def splitRunsAux (p : Char → Bool) : List Char → List Char → List (List Char)
  | [], acc => if acc.isEmpty then [] else [acc.reverse]
  | c :: cs, acc =>
      if p c then
        (if acc.isEmpty then [] else [acc.reverse]) ++ splitRunsAux p cs []
      else splitRunsAux p cs (c :: acc)

def splitRuns (p : Char → Bool) (l : List Char) : List (List Char) :=
  splitRunsAux p l []

/-- pathlib's stem/suffix split: the suffix starts at the last '.' of the
name provided that dot is neither the first nor the last character. -/
def pySplitExt (name : List Char) : List Char × List Char :=
  match name.reverse.findIdx? (fun c => c = '.') with
  | none => (name, [])
  | some j =>
      let i := name.length - 1 - j
      if 0 < i ∧ i < name.length - 1 then (name.take i, name.drop i)
      else (name, [])

/-- `_extract_keywords_from_filename` (image_selector.py lines 8-54):
strip the input, take the path's final component, split off the
extension, add it (lowercased, dot removed); clean the base name of
leading digits/dots/underscores/spaces/hyphens, split it on
space/underscore/hyphen runs into lowercased words (falling back to the
whole cleaned base when no word survives); finally add the lowercased
filename and cleaned base, and drop the empty string. -/
def extractKeywordsFromFilename (filenameStr : String) : Finset String :=
  let cleaned := charStrip filenameStr.data
  if cleaned.isEmpty then ∅
  else
    let name := (splitOnChar '/' cleaned).getLastD []
    let se := pySplitExt name
    let ext := (se.2.drop 1).map asciiLower
    let keywordsExt : Finset String :=
      if ext.isEmpty then ∅ else {(⟨ext⟩ : String)}
    let baseCleaned := charStrip (se.1.dropWhile isLeadingJunk)
    let parts := splitRuns isDelim baseCleaned
    let wordsList := ((parts.map (fun part => (charStrip part).map asciiLower)).filter
        (fun w => !w.isEmpty)).map (fun w => (⟨w⟩ : String))
    let words : Finset String :=
      if wordsList.isEmpty && !baseCleaned.isEmpty then
        {(⟨baseCleaned.map asciiLower⟩ : String)}
      else wordsList.toFinset
    let withName := keywordsExt ∪ words ∪ {(⟨name.map asciiLower⟩ : String)}
    let withBase :=
      if baseCleaned.isEmpty then withName
      else withName ∪ {(⟨baseCleaned.map asciiLower⟩ : String)}
    withBase.erase ""

/-- The scoring context: the set of `\b\w+\b` words of the lowercased
email body and company name (image_selector.py lines 91-93). -/
def contextWords (text : List Char) : Finset String :=
  ((splitRuns (fun c => !isWordChar c) text).map
    (fun w => (⟨w⟩ : String))).toFinset

/-- `score = len(filename_keywords.intersection(context_words))`. -/
def imageScore (ctx : Finset String) (filename : String) : Nat :=
  (extractKeywordsFromFilename filename ∩ ctx).card

/-- `select_relevant_images` (image_selector.py lines 57-121), with the
directory's candidate image files (the concatenated glob lists) as
input: score every candidate by keyword overlap with the context, sort
stably by score descending, take the top `max_images`, then fill any
shortfall with the remaining candidates in sorted order. -/
def select_relevant_images (candidateImages : List String)
    (emailBody companyName : String) (maxImages : Nat) : List String :=
  if candidateImages.isEmpty then []
  else
    let ctx := contextWords (pyLower (emailBody ++ " " ++ companyName)).data
    let imageScores := candidateImages.map (fun p => (p, imageScore ctx p))
    let sorted := imageScores.mergeSort (fun a b => decide (b.2 ≤ a.2))
    let selected := (sorted.take maxImages).map Prod.fst
    if selected.length < maxImages then
      let remaining := (sorted.map Prod.fst).filter
        (fun p => decide (p ∉ selected))
      selected ++ remaining.take (maxImages - selected.length)
    else selected

/-- The candidates in the stable score-descending order the selector
uses; `select_relevant_images` always returns a prefix of this list. -/
def rankedImages (candidateImages : List String)
    (emailBody companyName : String) : List String :=
  let ctx := contextWords (pyLower (emailBody ++ " " ++ companyName)).data
  ((candidateImages.map (fun p => (p, imageScore ctx p))).mergeSort
      (fun a b => decide (b.2 ≤ a.2))).map Prod.fst

/-! ### Concrete fixtures for witnesses and counterexamples -/

/-- An environment where every external call raises `RuntimeError`. -/
def failingEnv : Env where
  fetchWebsiteContent := fun _ => .error "RuntimeError"
  extractMainBusiness := fun _ => .error "RuntimeError"
  identifyCooperationPoints := fun _ _ => .error "RuntimeError"
  generate := fun _ => .error "RuntimeError"
  selectImages := fun _ _ _ => .error "RuntimeError"
  createMimeEmail := .error "RuntimeError"
  saveEmailToDrafts := .error "RuntimeError"

/-- The record of the spec's fetch-null scenario:
directive "yes", recipient "a@b.com", website "http://x.com". -/
def scenarioRecord : TargetCompanyData where
  website := "http://x.com"
  recipientEmail := "a@b.com"
  companyName := "Acme"
  contactPerson := "Ann"
  processFlag := "yes"

/-- The same identity with a second company name, for in-batch duplicate
scenarios. -/
def scenarioRecordTwin : TargetCompanyData where
  website := "http://x.com"
  recipientEmail := "a@b.com"
  companyName := "Beta"
  contactPerson := "Bob"
  processFlag := "yes"

/-- A record with a non-affirmative directive whose address sits in the
prior dedupe set. -/
def dupNoFlagRecord : TargetCompanyData where
  website := "http://x.com"
  recipientEmail := "a@b.com"
  companyName := "Acme"
  contactPerson := "Ann"
  processFlag := "no"

/-- An environment whose web fetch returns `None`; no other collaborator
is reached in the fetch-null scenario. -/
def fetchNullEnv : Env :=
  {failingEnv with fetchWebsiteContent := fun _ => .ok none}

/-- A well-formed generated letter (no error marker in the body). -/
def goodLetter : DevelopingLetter := ⟨"Subject", "<p>Hi [IMAGE1]</p>"⟩

/-- An environment where every stage succeeds but image selection yields
only two images. -/
def twoImagesEnv : Env where
  fetchWebsiteContent := fun _ => .ok (some "site content")
  extractMainBusiness := fun _ => .ok (some "makes drones")
  identifyCooperationPoints := fun _ _ => .ok (some "joint marketing")
  generate := fun _ => .ok goodLetter
  selectImages := fun _ _ _ => .ok ["a.jpg", "b.png"]
  createMimeEmail := .ok ()
  saveEmailToDrafts := .ok (some "draft-42")

/-- An environment where every stage succeeds and image selection yields
exactly as many images as requested. -/
def successEnv : Env where
  fetchWebsiteContent := fun _ => .ok (some "site content")
  extractMainBusiness := fun _ => .ok (some "makes drones")
  identifyCooperationPoints := fun _ _ => .ok (some "joint marketing")
  generate := fun _ => .ok goodLetter
  selectImages := fun _ _ n => .ok (List.replicate n "img.jpg")
  createMimeEmail := .ok ()
  saveEmailToDrafts := .ok (some "draft-42")

end SendDevelopingLetters

namespace SendDevelopingLetters

/-- C2: with retry bound 2, two retryable failures then a well-formed
non-empty completion yield that content after exactly 3 attempts, with
exactly two sleeps of doubling length `d` then `2 * d`. -/
theorem C2_retryable_twice_then_success (oracle : Nat → AttemptResult)
    (e₁ e₂ : ApiFailure) (s : String) (d : ℚ)
    (h1 : oracle 1 = .apiFailure e₁) (hr1 : isRetryable e₁ = true)
    (h2 : oracle 2 = .apiFailure e₂) (hr2 : isRetryable e₂ = true)
    (h3 : oracle 3 = .completion s) (hs : pyStrip s = s) (hne : s ≠ "") :
    getCompletion oracle 2 d = ⟨some s, [d, 2 * d], 3⟩ := by
  have e0 : (0 : Nat) < 2 := by norm_num
  have e1 : (1 : Nat) < 2 := by norm_num
  simp [getCompletion, getCompletionLoop, h1, hr1, h2, hr2, h3, hs, e0, e1,
    mul_comm]

/-- Witness oracle for C2: rate-limit on attempt 1, timeout on attempt 2,
content on attempt 3. -/
def oracleC2 : Nat → AttemptResult
  | 1 => .apiFailure .rateLimitError
  | 2 => .apiFailure .timeoutError
  | _ => .completion "hello"

theorem C2_retryable_twice_then_success_witness :
    getCompletion oracleC2 2 1 = ⟨some "hello", [1, 2 * 1], 3⟩ :=
  C2_retryable_twice_then_success oracleC2 .rateLimitError .timeoutError
    "hello" 1 rfl rfl rfl rfl rfl (by decide) (by decide)

/-- C3: a fatal-classified failure on attempt 1 makes the engine return
`None` after exactly one attempt, with no sleep, for every retry bound
and every initial delay. -/
theorem C3_fatal_returns_immediately (oracle : Nat → AttemptResult)
    (e : ApiFailure) (maxRetries : Nat) (d : ℚ)
    (h1 : oracle 1 = .apiFailure e) (hf : isRetryable e = false) :
    getCompletion oracle maxRetries d = ⟨none, [], 1⟩ := by
  simp [getCompletion, getCompletionLoop, h1, hf]

/-- Witness oracle for C3: `BadRequestError` on every attempt. -/
def oracleC3 : Nat → AttemptResult := fun _ => .apiFailure .badRequestError

theorem C3_fatal_returns_immediately_witness :
    getCompletion oracleC3 3 1 = ⟨none, [], 1⟩ :=
  C3_fatal_returns_immediately oracleC3 .badRequestError 3 1 rfl rfl

/-- C5: a record whose process directive is not the affirmative token
"yes" (after trimming and case-folding) ends as `Skipped: Process flag`
and contributes nothing to the batch's saved results. -/
theorem C5_directive_skip_excluded (env : Env) (sky : String) (mi : Nat)
    (keys : List String) (c : TargetCompanyData)
    (h : should_process c = false) :
    (processCompany env sky mi keys c).company.processingStatus
        = some "Skipped: Process flag" ∧
    contribution (processCompany env sky mi keys c) = [] := by
  simp [processCompany, processBody, contribution, h]

theorem C5_directive_skip_excluded_witness :
    (processCompany failingEnv "sky" 3 [] dupNoFlagRecord).company.processingStatus
        = some "Skipped: Process flag" ∧
    contribution (processCompany failingEnv "sky" 3 [] dupNoFlagRecord) = [] :=
  C5_directive_skip_excluded failingEnv "sky" 3 [] dupNoFlagRecord (by decide)

/-- C4 (amended): a record whose directive is affirmative and whose
normalized recipient address is in the pre-loaded dedupe set ends as
`Skipped: Already processed` with no collaborator stage invoked — in
particular Fetch and everything after it never run. -/
theorem C4_amended_duplicate_skip (env : Env) (sky : String) (mi : Nat)
    (keys : List String) (c : TargetCompanyData)
    (h1 : should_process c = true)
    (h2 : normalizedEmail c ∈ keys) :
    (processCompany env sky mi keys c).company.processingStatus
        = some "Skipped: Already processed" ∧
    (processCompany env sky mi keys c).stages = [] := by
  simp [processCompany, processBody, h1, h2]

theorem C4_amended_duplicate_skip_witness :
    (processCompany failingEnv "sky" 3 ["a@b.com"] scenarioRecord).company.processingStatus
        = some "Skipped: Already processed" ∧
    (processCompany failingEnv "sky" 3 ["a@b.com"] scenarioRecord).stages = [] :=
  C4_amended_duplicate_skip failingEnv "sky" 3 ["a@b.com"] scenarioRecord
    (by decide) (by decide)

/-- C4 fails as stated: `dupNoFlagRecord`'s normalized address is in the
dedupe set, yet its status is the directive skip, not
`Skipped: Already processed`, because the process-flag check runs first. -/
theorem C4_counterexample :
    normalizedEmail dupNoFlagRecord ∈ ["a@b.com"] ∧
    (processCompany failingEnv "sky" 3 ["a@b.com"] dupNoFlagRecord).company.processingStatus
        ≠ some "Skipped: Already processed" := by
  decide

/-- C1 (amended): a record that passes validation and dedupe and whose
web fetch returns `None` terminates at the fetch stage with
`Error: Failed to fetch website`; extract, cooperate and draft are never
invoked, and the record is still appended to the batch's saved results. -/
theorem C1_amended_fetch_null_terminates (env : Env) (sky : String) (mi : Nat)
    (keys : List String) (c : TargetCompanyData)
    (h1 : should_process c = true)
    (h2 : normalizedEmail c ∉ keys)
    (h3 : validEmailFormat c.recipientEmail = true)
    (h4 : env.fetchWebsiteContent c.website = .ok none) :
    (processCompany env sky mi keys c).company.processingStatus
        = some "Error: Failed to fetch website" ∧
    (processCompany env sky mi keys c).stages = [Stage.fetch] ∧
    contribution (processCompany env sky mi keys c)
        = [(processCompany env sky mi keys c).company] := by
  have hp : needsStatusPatch (some "Error: Failed to fetch website") = false := by
    decide
  simp [processCompany, processBody, contribution, h1, h2, h3, h4, hp]

theorem C1_amended_fetch_null_terminates_witness :
    (processCompany fetchNullEnv "sky" 3 [] scenarioRecord).company.processingStatus
        = some "Error: Failed to fetch website" ∧
    (processCompany fetchNullEnv "sky" 3 [] scenarioRecord).stages = [Stage.fetch] ∧
    contribution (processCompany fetchNullEnv "sky" 3 [] scenarioRecord)
        = [(processCompany fetchNullEnv "sky" 3 [] scenarioRecord).company] :=
  C1_amended_fetch_null_terminates fetchNullEnv "sky" 3 [] scenarioRecord
    (by decide) (by decide) (by decide) rfl

/-- C1 fails as stated: in the spec's own scenario (directive "yes",
recipient "a@b.com", website "http://x.com", fetch returning `None`) the
record terminates early with a fetch error; no "Not Available" sentinel
is produced and the draft stage is never invoked. -/
theorem C1_counterexample :
    (processCompany fetchNullEnv "sky" 3 [] scenarioRecord).company.processingStatus
        = some "Error: Failed to fetch website" ∧
    Stage.draft ∉ (processCompany fetchNullEnv "sky" 3 [] scenarioRecord).stages ∧
    (processCompany fetchNullEnv "sky" 3 [] scenarioRecord).company.mainBusiness
        ≠ some "Not Available" ∧
    (processCompany fetchNullEnv "sky" 3 [] scenarioRecord).company.cooperationPointsStr
        ≠ some "Not Available" := by
  decide

/-- C6: when image selection returns a number of assets different from
the required count, the record ends as `Skipped: Found n/m images`, the
MIME and filing collaborators are never invoked, and — the skip being
downstream — the record is still appended to the batch's saved results. -/
theorem C6_insufficient_assets_skip (env : Env) (sky : String) (mi : Nat)
    (keys : List String) (c : TargetCompanyData) (wc : String)
    (extracted points : Option String) (letter : DevelopingLetter)
    (imgs : List String)
    (h1 : should_process c = true)
    (h2 : normalizedEmail c ∉ keys)
    (h3 : validEmailFormat c.recipientEmail = true)
    (h4 : env.fetchWebsiteContent c.website = .ok (some wc))
    (h5 : env.extractMainBusiness wc = .ok extracted)
    (h6 : env.identifyCooperationPoints sky (mainBusinessValue extracted)
        = .ok points)
    (h7 : env.generate ⟨cooperationValue points, c.companyName,
        contactPersonValue c⟩ = .ok letter)
    (h8 : pyContains letter.bodyHtml "Error generating letter content" = false)
    (h9 : env.selectImages letter.bodyHtml c.companyName mi = .ok imgs)
    (h10 : imgs.length ≠ mi) :
    (processCompany env sky mi keys c).company.processingStatus
        = some ("Skipped: Found " ++ toString imgs.length ++ "/" ++
            toString mi ++ " images") ∧
    Stage.mime ∉ (processCompany env sky mi keys c).stages ∧
    Stage.file ∉ (processCompany env sky mi keys c).stages ∧
    contribution (processCompany env sky mi keys c)
        = [(processCompany env sky mi keys c).company] := by
  simp [processCompany, processBody, contribution, h1, h2, h3, h4, h5, h6,
    h7, h8, h9, h10]

theorem C6_insufficient_assets_skip_witness :
    (processCompany twoImagesEnv "sky" 3 [] scenarioRecord).company.processingStatus
        = some ("Skipped: Found " ++ toString ([( "a.jpg" : String), "b.png"].length)
            ++ "/" ++ toString 3 ++ " images") ∧
    Stage.mime ∉ (processCompany twoImagesEnv "sky" 3 [] scenarioRecord).stages ∧
    Stage.file ∉ (processCompany twoImagesEnv "sky" 3 [] scenarioRecord).stages ∧
    contribution (processCompany twoImagesEnv "sky" 3 [] scenarioRecord)
        = [(processCompany twoImagesEnv "sky" 3 [] scenarioRecord).company] :=
  C6_insufficient_assets_skip twoImagesEnv "sky" 3 [] scenarioRecord
    "site content" (some "makes drones") (some "joint marketing") goodLetter
    ["a.jpg", "b.png"] (by decide) (by decide) (by decide) rfl rfl rfl rfl
    (by decide) rfl (by decide)

/-- C8: a fault escaping the per-record try block is caught at the record
boundary: the status is patched to `Error: {fault}` unless a specific
`Error:`/`Skipped:` status was already set, a faulted record is still
recorded, and the batch maps over every record regardless. -/
theorem C8_record_boundary_isolation :
    (∀ (env : Env) (sky : String) (mi : Nat) (keys : List String)
        (c : TargetCompanyData) (exName : String),
        (processBody env sky mi keys c).raised = some exName →
        needsStatusPatch (processBody env sky mi keys c).company.processingStatus
            = true →
        (processCompany env sky mi keys c).company.processingStatus
            = some ("Error: " ++ exName)) ∧
    (∀ (env : Env) (sky : String) (mi : Nat) (keys : List String)
        (c : TargetCompanyData) (exName : String),
        (processBody env sky mi keys c).raised = some exName →
        needsStatusPatch (processBody env sky mi keys c).company.processingStatus
            = false →
        (processCompany env sky mi keys c).company
            = (processBody env sky mi keys c).company) ∧
    (∀ (env : Env) (sky : String) (mi : Nat) (keys : List String)
        (c : TargetCompanyData),
        (processBody env sky mi keys c).raised ≠ none →
        (processBody env sky mi keys c).shouldRecord = true) ∧
    (∀ (env : Env) (sky : String) (mi : Nat) (keys : List String)
        (cs : List TargetCompanyData),
        runBatch env sky mi keys cs = cs.map (processCompany env sky mi keys) ∧
        (runBatch env sky mi keys cs).length = cs.length) := by
  refine ⟨?_, ?_, ?_, ?_⟩
  · intro env sky mi keys c exName h hp
    simp [processCompany, h, hp]
  · intro env sky mi keys c exName h hp
    simp [processCompany, h, hp]
  · intro env sky mi keys c h
    unfold processBody at h ⊢
    repeat' split at h
    all_goals simp_all
  · intro env sky mi keys cs
    exact ⟨rfl, by simp [runBatch]⟩

theorem C8_record_boundary_isolation_witness :
    (processCompany failingEnv "sky" 3 [] scenarioRecord).company.processingStatus
        = some ("Error: " ++ "RuntimeError") :=
  C8_record_boundary_isolation.1 failingEnv "sky" 3 [] scenarioRecord
    "RuntimeError" (by decide) (by decide)

/-- If every collaborator succeeds uniformly and the record passes
validation and dedupe, processing ends in `Success: Draft ID ...`. -/
theorem processCompany_success_general (env : Env) (sky : String) (mi : Nat)
    (keys : List String) (c : TargetCompanyData)
    (wc biz pts did : String) (letter : DevelopingLetter) (imgs : List String)
    (h1 : should_process c = true)
    (h2 : normalizedEmail c ∉ keys)
    (h3 : validEmailFormat c.recipientEmail = true)
    (h4 : ∀ u, env.fetchWebsiteContent u = .ok (some wc))
    (h5 : ∀ s, env.extractMainBusiness s = .ok (some biz))
    (h6 : ∀ a b, env.identifyCooperationPoints a b = .ok (some pts))
    (h7 : ∀ inp, env.generate inp = .ok letter)
    (h8 : pyContains letter.bodyHtml "Error generating letter content" = false)
    (h9 : ∀ b n, env.selectImages b n mi = .ok imgs)
    (h10 : imgs.length = mi)
    (h11 : env.createMimeEmail = .ok ())
    (h12 : env.saveEmailToDrafts = .ok (some did))
    (h13 : did ≠ "") :
    (processCompany env sky mi keys c).company.processingStatus
        = some ("Success: Draft ID " ++ did) := by
  simp [processCompany, processBody, h1, h2, h3, h4, h5, h6, h7, h8, h9,
    h10, h11, h12, isTruthy, h13]

/-- C9: the dedupe set is fixed before the batch and not grown during it,
so two records sharing one normalized address that is absent from the
prior store are both fully processed to success in the same run. -/
theorem C9_inbatch_duplicates_both_processed (env : Env) (sky : String)
    (mi : Nat) (keys : List String) (r₁ r₂ : TargetCompanyData)
    (wc biz pts did : String) (letter : DevelopingLetter) (imgs : List String)
    (hemail : normalizedEmail r₂ = normalizedEmail r₁)
    (hnotin : normalizedEmail r₁ ∉ keys)
    (hp1 : should_process r₁ = true) (hp2 : should_process r₂ = true)
    (hv1 : validEmailFormat r₁.recipientEmail = true)
    (hv2 : validEmailFormat r₂.recipientEmail = true)
    (h4 : ∀ u, env.fetchWebsiteContent u = .ok (some wc))
    (h5 : ∀ s, env.extractMainBusiness s = .ok (some biz))
    (h6 : ∀ a b, env.identifyCooperationPoints a b = .ok (some pts))
    (h7 : ∀ inp, env.generate inp = .ok letter)
    (h8 : pyContains letter.bodyHtml "Error generating letter content" = false)
    (h9 : ∀ b n, env.selectImages b n mi = .ok imgs)
    (h10 : imgs.length = mi)
    (h11 : env.createMimeEmail = .ok ())
    (h12 : env.saveEmailToDrafts = .ok (some did))
    (h13 : did ≠ "") :
    (runBatch env sky mi keys [r₁, r₂]).map
        (fun r => r.company.processingStatus)
      = [some ("Success: Draft ID " ++ did),
         some ("Success: Draft ID " ++ did)] := by
  have s₁ := processCompany_success_general env sky mi keys r₁ wc biz pts did
    letter imgs hp1 hnotin hv1 h4 h5 h6 h7 h8 h9 h10 h11 h12 h13
  have s₂ := processCompany_success_general env sky mi keys r₂ wc biz pts did
    letter imgs hp2 (by rw [hemail]; exact hnotin) hv2 h4 h5 h6 h7 h8 h9 h10
    h11 h12 h13
  simp [runBatch, s₁, s₂]

/-- C7: appending a non-empty batch to a store whose file does not exist
writes exactly one row per record, and every row carries the single
batch timestamp. -/
theorem C7_fresh_store_batch_rows (cs : List TargetCompanyData) (ts : String)
    (h : cs ≠ []) :
    save_processed_data cs ts none = some (cs.map (toPersistedRow ts)) ∧
    (cs.map (toPersistedRow ts)).length = cs.length ∧
    ∀ r ∈ cs.map (toPersistedRow ts), r.savingFileTime = ts := by
  refine ⟨?_, by simp, ?_⟩
  · simp [save_processed_data, List.isEmpty_iff, h]
  · intro r hr
    rcases List.mem_map.mp hr with ⟨c, _, rfl⟩
    rfl

theorem C7_fresh_store_batch_rows_witness :
    save_processed_data [dupNoFlagRecord] "2025/03/30 08:26:49" none
        = some ([dupNoFlagRecord].map (toPersistedRow "2025/03/30 08:26:49")) ∧
    ([dupNoFlagRecord].map (toPersistedRow "2025/03/30 08:26:49")).length
        = [dupNoFlagRecord].length ∧
    ∀ r ∈ [dupNoFlagRecord].map (toPersistedRow "2025/03/30 08:26:49"),
        r.savingFileTime = "2025/03/30 08:26:49" :=
  C7_fresh_store_batch_rows [dupNoFlagRecord] "2025/03/30 08:26:49" (by decide)

/-- The ranked candidate list is a permutation of the candidates. -/
theorem rankedImages_perm (cand : List String) (b n : String) :
    List.Perm (rankedImages cand b n) cand := by
  unfold rankedImages
  have h := List.mergeSort_perm
    (cand.map (fun p =>
      (p, imageScore (contextWords (pyLower (b ++ " " ++ n)).data) p)))
    (fun a b => decide (b.2 ≤ a.2))
  have hcomp : (Prod.fst ∘ fun p : String =>
      (p, imageScore (contextWords (pyLower (b ++ " " ++ n)).data) p))
      = fun p => p := rfl
  simpa [List.map_map, hcomp] using h.map Prod.fst

/-- The selector's result is always the `maxImages`-prefix of the ranked
candidate list: when the top-`maxImages` slice already falls short, the
fill loop appends nothing new. -/
theorem select_eq_take_ranked (cand : List String) (b n : String) (m : Nat) :
    select_relevant_images cand b n m = (rankedImages cand b n).take m := by
  cases hc : cand.isEmpty
  · simp only [select_relevant_images, rankedImages, hc, Bool.false_eq_true,
      if_false]
    set sorted := (cand.map (fun p =>
      (p, imageScore (contextWords (pyLower (b ++ " " ++ n)).data) p))).mergeSort
      (fun a b => decide (b.2 ≤ a.2)) with hsorted
    by_cases hm : ((sorted.take m).map Prod.fst).length < m
    · have hmin : min m sorted.length < m := by
        have := List.length_take m sorted
        simpa [this] using hm
      have hlt : sorted.length < m := by omega
      have htake : sorted.take m = sorted :=
        List.take_of_length_le (le_of_lt hlt)
      rw [if_pos hm, htake]
      have hrem : (sorted.map Prod.fst).filter
          (fun p => decide (p ∉ sorted.map Prod.fst)) = [] := by
        simp only [List.filter_eq_nil_iff]
        intro a ha
        simp [ha]
      rw [hrem]
      have hlen2 : (sorted.map Prod.fst).length ≤ m := by
        simpa using le_of_lt hlt
      simp [List.take_of_length_le hlen2]
    · rw [if_neg hm]
      exact List.map_take _ _ _
  · have hnil : cand = [] := List.isEmpty_iff.mp hc
    subst hnil
    simp [select_relevant_images, rankedImages]

/-- C10: the selector returns at most `max_images` paths, all drawn from
the candidate list, without duplicates when the candidates are distinct;
it returns exactly `max_images` paths whenever at least that many
candidates exist, so a shortfall implies the directory itself held fewer
candidates. -/
theorem C10_select_relevant_images_bounds (cand : List String)
    (emailBody companyName : String) (m : Nat) (h : cand.Nodup) :
    (select_relevant_images cand emailBody companyName m).length ≤ m ∧
    (∀ p ∈ select_relevant_images cand emailBody companyName m, p ∈ cand) ∧
    (select_relevant_images cand emailBody companyName m).Nodup ∧
    (m ≤ cand.length →
      (select_relevant_images cand emailBody companyName m).length = m) ∧
    ((select_relevant_images cand emailBody companyName m).length < m →
      cand.length < m) := by
  have hperm := rankedImages_perm cand emailBody companyName
  have heq := select_eq_take_ranked cand emailBody companyName m
  have hrl : (rankedImages cand emailBody companyName).length = cand.length :=
    hperm.length_eq
  have hL : (select_relevant_images cand emailBody companyName m).length
      = min m cand.length := by
    rw [heq, List.length_take, hrl]
  refine ⟨?_, ?_, ?_, ?_, ?_⟩
  · rw [hL]; exact Nat.min_le_left _ _
  · intro p hp
    rw [heq] at hp
    exact hperm.mem_iff.mp (List.take_subset _ _ hp)
  · rw [heq]
    exact (List.take_sublist _ _).nodup (hperm.nodup_iff.mpr h)
  · intro hm; rw [hL]; omega
  · intro hlt; rw [hL] at hlt; omega

theorem C10_select_relevant_images_bounds_witness :
    (select_relevant_images ["a.jpg", "b.png"] "body" "Acme" 1).length ≤ 1 ∧
    (∀ p ∈ select_relevant_images ["a.jpg", "b.png"] "body" "Acme" 1,
      p ∈ (["a.jpg", "b.png"] : List String)) ∧
    (select_relevant_images ["a.jpg", "b.png"] "body" "Acme" 1).Nodup ∧
    (1 ≤ (["a.jpg", "b.png"] : List String).length →
      (select_relevant_images ["a.jpg", "b.png"] "body" "Acme" 1).length = 1) ∧
    ((select_relevant_images ["a.jpg", "b.png"] "body" "Acme" 1).length < 1 →
      (["a.jpg", "b.png"] : List String).length < 1) :=
  C10_select_relevant_images_bounds ["a.jpg", "b.png"] "body" "Acme" 1
    (by decide)

theorem C9_inbatch_duplicates_both_processed_witness :
    (runBatch successEnv "sky" 3 [] [scenarioRecord, scenarioRecordTwin]).map
        (fun r => r.company.processingStatus)
      = [some ("Success: Draft ID " ++ "draft-42"),
         some ("Success: Draft ID " ++ "draft-42")] :=
  C9_inbatch_duplicates_both_processed successEnv "sky" 3 []
    scenarioRecord scenarioRecordTwin "site content" "makes drones"
    "joint marketing" "draft-42" goodLetter (List.replicate 3 "img.jpg")
    (by decide) (by decide) (by decide) (by decide) (by decide) (by decide)
    (fun _ => rfl) (fun _ => rfl) (fun _ _ => rfl) (fun _ => rfl) (by decide)
    (fun _ _ => rfl) (by decide) rfl rfl (by decide)

end SendDevelopingLetters
